import Mathlib

/-!
Verification of the backend-selection and fallback-execution policy of
`play.py`, a PCM5100/I2S playback smoke-test script.

The script is embedded shallowly:
  * `Cmd` mirrors the frozen `Cmd` dataclass (executable plus argument list).
  * `Tools` records the result of `shutil.which` for the four external tools
    the script ever looks up (`mpg123`, `ffplay`, `ffmpeg`, `aplay`).
  * `backend_commands` mirrors `_backend_commands`: the ordered candidate
    generator.
  * `run_ffmpeg_to_wav_then_aplay` mirrors `_run_ffmpeg_to_wav_then_aplay`:
    the two-stage decode-then-play pipeline, with the decode exit status and
    the per-attempt play exit statuses supplied by oracles, and a fuel bound
    standing in for the unbounded negative-loop mode.
  * `mainRun` mirrors `main`: file validation, probing, `--list-devices`,
    the setup hint, candidate construction, and the fallback loop
    (`tryCandidates`).  Child-process launches and other observable actions
    are recorded in an `Event` trace.
-/

namespace Play

/-- The `Cmd` dataclass: an executable name plus ordered arguments. -/
structure Cmd where
  exe : String
  args : List String
deriving Repr, DecidableEq

/-- `Cmd.as_list`: the full argv, executable first. -/
def Cmd.as_list (c : Cmd) : List String := c.exe :: c.args

/-- Results of `shutil.which` for each external tool the script looks up. -/
structure Tools where
  mpg123 : Option String
  ffplay : Option String
  ffmpeg : Option String
  aplay : Option String
deriving Repr, DecidableEq

/-- Python truthiness of the optional `--device` string: `None` and the
empty string are falsy. -/
def optTruthy : Option String → Bool
  | none => false
  | some s => !s.isEmpty

/-- Python `device or "default"` used when building the pipeline descriptor. -/
def orDefault : Option String → String
  | none => "default"
  | some s => if s.isEmpty then "default" else s

/-- The `-a dev` fragment of the `mpg123` invocation: present exactly when
the device string is truthy. -/
def mpgDeviceArgs : Option String → List String
  | none => []
  | some s => if s.isEmpty then [] else ["-a", s]

/-- Argument list built for the `mpg123` backend: `-a dev` only when the
device string is truthy, then the loop flag, then the file path. -/
def mpg123Args (mp3_path : String) (device : Option String) (loops : Int) : List String :=
  mpgDeviceArgs device
  ++ (if loops < 0 then ["--loop", "-1"]
      else if loops > 1 then ["--loop", toString loops]
      else [])
  ++ [mp3_path]

/-- Argument list built for the `ffplay` backend: fixed flags, then the loop
flag (`-loop 0` for infinite, `-loop (N-1)` for N greater than 1), then the
file path.  `ffplay` gets no device flag. -/
def ffplayArgs (mp3_path : String) (loops : Int) : List String :=
  ["-nodisp", "-autoexit", "-loglevel", "error"]
  ++ (if loops < 0 then ["-loop", "0"]
      else if loops > 1 then ["-loop", toString (loops - 1)]
      else [])
  ++ [mp3_path]

/-- Sentinel executable name marking the two-stage pipeline descriptor. -/
def pipeSentinel : String := "__ffmpeg_aplay__"

/-- `_backend_commands`: candidate playback commands in preference order
mpg123, ffplay, ffmpeg+aplay; the pipeline candidate exists only when both
`ffmpeg` and `aplay` are located. -/
def backend_commands (mp3_path : String) (device : Option String) (loops : Int)
    (t : Tools) : List Cmd :=
  (match t.mpg123 with
   | some exe => [⟨exe, mpg123Args mp3_path device loops⟩]
   | none => [])
  ++ (match t.ffplay with
   | some exe => [⟨exe, ffplayArgs mp3_path loops⟩]
   | none => [])
  ++ (match t.ffmpeg, t.aplay with
   | some _, some _ => [⟨pipeSentinel, [mp3_path, orDefault device, toString loops]⟩]
   | _, _ => [])

/-- The `aplay` command prefix inside the pipeline: device flag only when the
device string is truthy and not the literal `"default"`. -/
def aplayPlayCmd (aplay device : String) : List String :=
  if !device.isEmpty && device ≠ "default" then [aplay, "-D", device] else [aplay]

/-- Run up to `n` play attempts starting at attempt index `i`; the oracle
`playRc i` is the exit status of attempt `i`.  Returns the final status
(first non-zero status, else 0) and the number of attempts made. -/
def runPlays (playRc : Nat → Int) (i : Nat) : Nat → Int × Nat
  | 0 => (0, 0)
  | n + 1 =>
    if playRc i = 0 then
      let r := runPlays playRc (i + 1) n
      (r.1, r.2 + 1)
    else (playRc i, 1)

/-- The unbounded negative-loop mode, cut off by fuel: keeps playing while
attempts exit 0; `none` means no attempt failed within `fuel` attempts (the
real loop is still running). -/
def runPlaysInf (playRc : Nat → Int) (i : Nat) : Nat → Option (Int × Nat)
  | 0 => none
  | f + 1 =>
    if playRc i = 0 then
      (runPlaysInf playRc (i + 1) f).map (fun r => (r.1, r.2 + 1))
    else some (playRc i, 1)

/-- Outcome of the pipeline backend: final status (`none` when the infinite
mode is still running at fuel exhaustion), number of play attempts, whether
the temporary directory was created, and whether it was removed again. -/
structure PipeOutcome where
  status : Option Int
  plays : Nat
  tmpCreated : Bool
  tmpRemoved : Bool
deriving Repr, DecidableEq

/-- `_run_ffmpeg_to_wav_then_aplay`: re-check both tools (127 if either
vanished), acquire the scoped temporary directory, run the decode step
(status `decodeRc`); a non-zero decode status is returned immediately with
no play attempt; otherwise loop the play step per the loop count.  The
temporary directory is removed on every path that returns.  The device
string only shapes the spawned `aplay` argv (see `aplayPlayCmd`); the
outcome abstraction, which records statuses and attempt counts, does not
depend on it. -/
def run_ffmpeg_to_wav_then_aplay (t : Tools) (device : String) (loops : Int)
    (decodeRc : Int) (playRc : Nat → Int) (fuel : Nat) : PipeOutcome :=
  match t.ffmpeg, t.aplay with
  | some _, some _ =>
    if decodeRc ≠ 0 then ⟨some decodeRc, 0, true, true⟩
    else if loops < 0 then
      match runPlaysInf playRc 0 fuel with
      | some r => ⟨some r.1, r.2, true, true⟩
      | none => ⟨none, fuel, true, false⟩
    else
      let r := runPlays playRc 0 (max 1 loops.toNat)
      ⟨some r.1, r.2, true, true⟩
  | _, _ => ⟨some 127, 0, false, false⟩

/-- Keyword list of `_guess_pcm5100_card_present`. -/
def dacKeywords : List String :=
  ["hifiberry", "i2s", "snd_rpi_hifiberry_dac", "sndrpihifiberry",
   "rpi-dac", "rpidac", "dac", "pcm51"]

/-- Substring test (Python `needle in hay` for non-empty needles). -/
def strContains (hay needle : String) : Bool := 2 ≤ (hay.splitOn needle).length

/-- `_guess_pcm5100_card_present`: case-insensitive keyword match over the
two captured text blocks joined by a newline. -/
def guess_pcm5100_card_present (aplay_l aplay_L : String) : Bool :=
  dacKeywords.any (fun k => strContains (aplay_l ++ "\n" ++ aplay_L).toLower k)

/-- Observable actions of a run of `main`. -/
inductive Event where
  | probeSpawn (flag : String)
  | hintPrinted
  | candidatesBuilt
  | spawnSimple (cmd : Cmd)
  | spawnPipeline
deriving Repr, DecidableEq

/-- Events that launch an external playback/decoding process. -/
def Event.isPlayback : Event → Bool
  | .spawnSimple _ => true
  | .spawnPipeline => true
  | _ => false

/-- Events that launch any child process (probing included). -/
def Event.isChildSpawn : Event → Bool
  | .probeSpawn _ => true
  | .spawnSimple _ => true
  | .spawnPipeline => true
  | _ => false

/-- Outcome of `subprocess.run` on one simple candidate: either the
executable could not be launched (`FileNotFoundError`) or it exited with a
status. -/
inductive ExecResult where
  | notFound
  | exited (rc : Int)
deriving Repr, DecidableEq

/-- Result of a run of `main`: exit status (`none` when an infinite pipeline
loop is still running at fuel exhaustion) and the event trace. -/
structure MainResult where
  exitCode : Option Int
  events : List Event
deriving Repr, DecidableEq

/-- Probing (`_aplay_list_cards` / `_aplay_list_pcms`): each spawns an
`aplay` child only when `aplay` is located. -/
def probeEvents (t : Tools) : List Event :=
  (if t.aplay.isSome then [Event.probeSpawn "-l"] else [])
  ++ (if t.aplay.isSome then [Event.probeSpawn "-L"] else [])

/-- The candidate loop of `main`.  `exec i` is the `subprocess.run` outcome
for the candidate at position `i`.  A pipeline candidate is dispatched on
the sentinel executable name; under `--dry-run` the loop stops with status 0
before any spawn.  A simple candidate that cannot be launched is skipped; a
non-zero exit advances to the next candidate; exhaustion yields status 1. -/
def tryCandidates (dry : Bool) (t : Tools) (exec : Nat → ExecResult)
    (decodeRc : Int) (playRc : Nat → Int) (fuel : Nat) :
    List Cmd → Nat → Option Int × List Event
  | [], _ => (some 1, [])
  | c :: rest, i =>
    if c.exe = pipeSentinel then
      if dry then (some 0, [])
      else
        let po := run_ffmpeg_to_wav_then_aplay t (c.args.getD 1 "")
          (c.args.getD 2 "").toInt! decodeRc playRc fuel
        (po.status, if po.tmpCreated then [Event.spawnPipeline] else [])
    else if dry then (some 0, [])
    else
      match exec i with
      | .notFound => tryCandidates dry t exec decodeRc playRc fuel rest (i + 1)
      | .exited rc =>
        if rc = 0 then (some 0, [Event.spawnSimple c])
        else
          let r := tryCandidates dry t exec decodeRc playRc fuel rest (i + 1)
          (r.1, Event.spawnSimple c :: r.2)

/-- `main`: validate the file (exit 2 before anything else if missing),
probe, handle `--list-devices` (exit 0), print the setup hint when on a Pi
without an apparent DAC, build candidates (exit 127 when none), then run the
fallback loop. -/
def mainRun (file_exists : Bool) (mp3_path : String) (device : Option String)
    (loops : Int) (list_devices dry_run is_rpi : Bool) (aplay_l aplay_L : String)
    (t : Tools) (exec : Nat → ExecResult) (decodeRc : Int) (playRc : Nat → Int)
    (fuel : Nat) : MainResult :=
  if !file_exists then ⟨some 2, []⟩
  else
    let pe := probeEvents t
    if list_devices then ⟨some 0, pe⟩
    else
      let hintEv :=
        if is_rpi && !guess_pcm5100_card_present aplay_l aplay_L then
          [Event.hintPrinted]
        else []
      let candidates := backend_commands mp3_path device loops t
      if candidates.isEmpty then ⟨some 127, pe ++ hintEv ++ [Event.candidatesBuilt]⟩
      else
        let r := tryCandidates dry_run t exec decodeRc playRc fuel candidates 0
        ⟨r.1, pe ++ hintEv ++ [Event.candidatesBuilt] ++ r.2⟩

/-- One simple candidate fails: its executable cannot be launched, or its
process exits with a non-zero status. -/
def execFails (exec : Nat → ExecResult) (i : Nat) : Prop :=
  exec i = ExecResult.notFound ∨ ∃ rc : Int, rc ≠ 0 ∧ exec i = ExecResult.exited rc

/-- The candidate at position `i` fails: for a pipeline descriptor, its
pipeline run does not end with status 0; for a simple candidate, its
`subprocess.run` fails. -/
def candidateFails (t : Tools) (exec : Nat → ExecResult) (decodeRc : Int)
    (playRc : Nat → Int) (fuel : Nat) (c : Cmd) (i : Nat) : Prop :=
  if c.exe = pipeSentinel then
    (run_ffmpeg_to_wav_then_aplay t (c.args.getD 1 "") (c.args.getD 2 "").toInt!
        decodeRc playRc fuel).status ≠ some 0
  else execFails exec i

/-- Every candidate except possibly the last is a simple invocation (the
generator only ever places the pipeline descriptor last). -/
def simpleOnlyButLast : List Cmd → Prop
  | [] => True
  | [_] => True
  | c :: rest => c.exe ≠ pipeSentinel ∧ simpleOnlyButLast rest

/-- Spec-side formulation of the candidate sequence for comparison: the
fixed order [A, B, C] with each backend kept exactly when its required
executables are found (C requires both of its executables). -/
def specCandidateSeq (mp3_path : String) (device : Option String) (loops : Int)
    (t : Tools) : List Cmd :=
  (if t.mpg123.isSome then [⟨t.mpg123.getD "", mpg123Args mp3_path device loops⟩] else [])
  ++ (if t.ffplay.isSome then [⟨t.ffplay.getD "", ffplayArgs mp3_path loops⟩] else [])
  ++ (if t.ffmpeg.isSome && t.aplay.isSome then
        [⟨pipeSentinel, [mp3_path, orDefault device, toString loops]⟩] else [])

theorem sobl_tail {c : Cmd} {rest : List Cmd} (h : simpleOnlyButLast (c :: rest)) :
    simpleOnlyButLast rest := by
  cases rest with
  | nil => trivial
  | cons c' rs => exact h.2

theorem sobl_head {c c' : Cmd} {rs : List Cmd}
    (h : simpleOnlyButLast (c :: c' :: rs)) : c.exe ≠ pipeSentinel := h.1

theorem probeEvents_no_playback (t : Tools) :
    (probeEvents t).all (fun e => !e.isPlayback) = true := by
  cases h : t.aplay <;> simp [probeEvents, h, Event.isPlayback]

theorem tryCandidates_dry (t : Tools) (exec : Nat → ExecResult) (dRc : Int)
    (pRc : Nat → Int) (fuel : Nat) (c : Cmd) (rest : List Cmd) (i : Nat) :
    tryCandidates true t exec dRc pRc fuel (c :: rest) i = (some 0, []) := by
  by_cases hc : c.exe = pipeSentinel <;> simp [tryCandidates, hc]

theorem mainRun_playback (p : String) (d : Option String) (l : Int)
    (dry rpi : Bool) (al aL : String) (t : Tools) (exec : Nat → ExecResult)
    (dRc : Int) (pRc : Nat → Int) (fuel : Nat)
    (h : backend_commands p d l t ≠ []) :
    mainRun true p d l false dry rpi al aL t exec dRc pRc fuel =
      ⟨(tryCandidates dry t exec dRc pRc fuel (backend_commands p d l t) 0).1,
        probeEvents t
        ++ (if rpi && !guess_pcm5100_card_present al aL then
              [Event.hintPrinted] else [])
        ++ [Event.candidatesBuilt]
        ++ (tryCandidates dry t exec dRc pRc fuel (backend_commands p d l t) 0).2⟩ := by
  cases hcs : backend_commands p d l t with
  | nil => exact absurd hcs h
  | cons c rest => simp [mainRun, hcs]

theorem tryCandidates_fail_advance (t : Tools) (exec : Nat → ExecResult)
    (dRc : Int) (pRc : Nat → Int) (fuel : Nat) (c : Cmd) (rest : List Cmd)
    (i : Nat) (hc : c.exe ≠ pipeSentinel) (hfail : execFails exec i) :
    (tryCandidates false t exec dRc pRc fuel (c :: rest) i).1
      = (tryCandidates false t exec dRc pRc fuel rest (i + 1)).1 := by
  rcases hfail with h | ⟨rc, hrc, h⟩
  · simp [tryCandidates, hc, h]
  · simp [tryCandidates, hc, h, hrc]

theorem tryCandidates_one_all_fail (t : Tools) (exec : Nat → ExecResult)
    (dRc : Int) (pRc : Nat → Int) (fuel : Nat) (cs : List Cmd) :
    ∀ i : Nat, simpleOnlyButLast cs →
      (tryCandidates false t exec dRc pRc fuel cs i).1 = some 1 →
      ∀ j, j < cs.length →
        candidateFails t exec dRc pRc fuel (cs.getD j ⟨"", []⟩) (i + j) := by
  induction cs with
  | nil => intro i _ _ j hj; simp at hj
  | cons c rest ih =>
    intro i hs h1 j hj
    by_cases hc : c.exe = pipeSentinel
    · cases rest with
      | nil =>
        have hj0 : j = 0 := by simp at hj; omega
        subst hj0
        have h1' : (run_ffmpeg_to_wav_then_aplay t (c.args.getD 1 "")
            (c.args.getD 2 "").toInt! dRc pRc fuel).status = some 1 := by
          simpa [tryCandidates, hc] using h1
        simp only [List.getD_cons_zero, Nat.add_zero]
        unfold candidateFails
        rw [if_pos hc, h1']
        simp
      | cons c' rs => exact absurd (sobl_head hs) (by simp [hc])
    · have hrec : ∀ hrest :
          (tryCandidates false t exec dRc pRc fuel rest (i + 1)).1 = some 1,
          ∀ j, j < (c :: rest).length → execFails exec i →
          candidateFails t exec dRc pRc fuel ((c :: rest).getD j ⟨"", []⟩) (i + j) := by
        intro hrest j hj hfail
        cases j with
        | zero => simpa [candidateFails, hc] using hfail
        | succ j' =>
          have h := ih (i + 1) (sobl_tail hs) hrest j' (by simp at hj; omega)
          rw [List.getD_cons_succ, show i + (j' + 1) = i + 1 + j' from by omega]
          exact h
      cases hexec : exec i with
      | notFound =>
        have h1' : (tryCandidates false t exec dRc pRc fuel rest (i + 1)).1 = some 1 := by
          simpa [tryCandidates, hc, hexec] using h1
        exact hrec h1' j hj (Or.inl hexec)
      | exited rc =>
        by_cases hrc : rc = 0
        · subst hrc
          simp [tryCandidates, hc, hexec] at h1
        · have h1' : (tryCandidates false t exec dRc pRc fuel rest (i + 1)).1 = some 1 := by
            simpa [tryCandidates, hc, hexec, hrc] using h1
          exact hrec h1' j hj (Or.inr ⟨rc, hrc, hexec⟩)

theorem tryCandidates_first_success (t : Tools) (exec : Nat → ExecResult)
    (dRc : Int) (pRc : Nat → Int) (fuel : Nat) (cs : List Cmd) :
    ∀ i k : Nat, k < cs.length →
      (∀ j, j < k → ((cs.getD j ⟨"", []⟩).exe ≠ pipeSentinel ∧ execFails exec (i + j))) →
      (cs.getD k ⟨"", []⟩).exe ≠ pipeSentinel →
      exec (i + k) = ExecResult.exited 0 →
      (tryCandidates false t exec dRc pRc fuel cs i).1 = some 0 := by
  induction cs with
  | nil => intro i k hk; simp at hk
  | cons c rest ih =>
    intro i k hk hprev hsimple h0
    cases k with
    | zero =>
      simp only [List.getD_cons_zero] at hsimple
      simp only [Nat.add_zero] at h0
      simp [tryCandidates, hsimple, h0]
    | succ k' =>
      have hhead := hprev 0 (Nat.succ_pos k')
      simp only [List.getD_cons_zero, Nat.add_zero] at hhead
      rw [tryCandidates_fail_advance t exec dRc pRc fuel c rest i hhead.1 hhead.2]
      refine ih (i + 1) k' (by simpa using hk) ?_ (by simpa using hsimple) ?_
      · intro j hj
        have h := hprev (j + 1) (by omega)
        rw [List.getD_cons_succ] at h
        rw [show i + 1 + j = i + (j + 1) from by omega]
        exact h
      · rw [show i + 1 + k' = i + (k' + 1) from by omega]
        exact h0

theorem backend_commands_sobl (p : String) (d : Option String) (l : Int)
    (t : Tools) (hm : t.mpg123 ≠ some pipeSentinel)
    (hf : t.ffplay ≠ some pipeSentinel) :
    simpleOnlyButLast (backend_commands p d l t) := by
  obtain ⟨m, f, g, a⟩ := t
  have hm' : ∀ e : String, m = some e → e ≠ pipeSentinel := by
    intro e he h'
    exact hm (by rw [he, h'])
  have hf' : ∀ e : String, f = some e → e ≠ pipeSentinel := by
    intro e he h'
    exact hf (by rw [he, h'])
  cases m <;> cases f <;> cases g <;> cases a <;>
    first
      | exact trivial
      | exact ⟨hm' _ rfl, trivial⟩
      | exact ⟨hf' _ rfl, trivial⟩
      | exact ⟨hm' _ rfl, hf' _ rfl, trivial⟩

/-- Claim C2: the candidate sequence is exactly [backend A (mpg123),
backend B (ffplay), backend C (ffmpeg+aplay)] filtered to those backends
whose required executables are found, backend C requiring both of its
executables; and the sequence is empty exactly when no backend's
executables are all found. -/
theorem c2_candidate_order (p : String) (d : Option String) (l : Int)
    (t : Tools) :
    backend_commands p d l t = specCandidateSeq p d l t
    ∧ (backend_commands p d l t = [] ↔
        t.mpg123 = none ∧ t.ffplay = none
          ∧ (t.ffmpeg = none ∨ t.aplay = none)) := by
  obtain ⟨m, f, g, a⟩ := t
  cases m <;> cases f <;> cases g <;> cases a <;>
    simp [backend_commands, specCandidateSeq]

/-- Witness for C2 at a concrete tool environment with no tool present. -/
theorem c2_candidate_order_witness :
    backend_commands "track1.mp3" none 1 ⟨none, none, some "/usr/bin/ffmpeg", none⟩ = [] :=
  (c2_candidate_order "track1.mp3" none 1 ⟨none, none, some "/usr/bin/ffmpeg", none⟩).2.mpr
    ⟨rfl, rfl, Or.inr rfl⟩

/-- Claim C3: for loop count N given to the ffplay backend, the loop
argument is N-1 when N is greater than 1, the infinite token `-loop 0` when
N is negative, and absent when N equals 1. -/
theorem c3_ffplay_loop_flag (p : String) (N : Int) :
    (1 < N → ffplayArgs p N
      = ["-nodisp", "-autoexit", "-loglevel", "error", "-loop", toString (N - 1), p])
    ∧ (N < 0 → ffplayArgs p N
      = ["-nodisp", "-autoexit", "-loglevel", "error", "-loop", "0", p])
    ∧ (N = 1 → ffplayArgs p N
      = ["-nodisp", "-autoexit", "-loglevel", "error", p]) := by
  refine ⟨fun h => ?_, fun h => ?_, fun h => ?_⟩
  · rw [ffplayArgs, if_neg (by omega), if_pos h]
    rfl
  · rw [ffplayArgs, if_pos h]
    rfl
  · subst h
    rw [ffplayArgs, if_neg (by omega), if_neg (by omega)]
    rfl

/-- Witness for C3 at loop counts 3, -2 and 1. -/
theorem c3_ffplay_loop_flag_witness :
    ffplayArgs "track1.mp3" 3
      = ["-nodisp", "-autoexit", "-loglevel", "error", "-loop", toString ((3 : Int) - 1), "track1.mp3"]
    ∧ ffplayArgs "track1.mp3" (-2)
      = ["-nodisp", "-autoexit", "-loglevel", "error", "-loop", "0", "track1.mp3"]
    ∧ ffplayArgs "track1.mp3" 1
      = ["-nodisp", "-autoexit", "-loglevel", "error", "track1.mp3"] :=
  ⟨(c3_ffplay_loop_flag "track1.mp3" 3).1 (by decide),
   (c3_ffplay_loop_flag "track1.mp3" (-2)).2.1 (by decide),
   (c3_ffplay_loop_flag "track1.mp3" 1).2.2 rfl⟩

/-- Claim C4: for loop count N given to the mpg123 backend, the loop
argument is N itself when N is greater than 1, the infinite token
`--loop -1` when N is negative, and absent when N equals 1; the `-a` device
flag is appended exactly when a truthy device string was supplied. -/
theorem c4_mpg123_loop_and_device (p : String) (d : Option String) (N : Int) :
    (1 < N → mpg123Args p d N = mpgDeviceArgs d ++ ["--loop", toString N, p])
    ∧ (N < 0 → mpg123Args p d N = mpgDeviceArgs d ++ ["--loop", "-1", p])
    ∧ (N = 1 → mpg123Args p d N = mpgDeviceArgs d ++ [p])
    ∧ mpgDeviceArgs none = []
    ∧ (∀ s : String, s.isEmpty = false → mpgDeviceArgs (some s) = ["-a", s]) := by
  refine ⟨fun h => ?_, fun h => ?_, fun h => ?_, rfl, fun s hs => ?_⟩
  · rw [mpg123Args, if_neg (by omega), if_pos h]
    simp
  · rw [mpg123Args, if_pos h]
    simp
  · subst h
    rw [mpg123Args, if_neg (by omega), if_neg (by omega)]
    simp
  · rw [mpgDeviceArgs, hs]
    rfl

/-- Witness for C4 at loop counts 2, -1 and 1 with device `hw:1,0`. -/
theorem c4_mpg123_loop_and_device_witness :
    mpg123Args "track1.mp3" (some "hw:1,0") 2
      = mpgDeviceArgs (some "hw:1,0") ++ ["--loop", toString (2 : Int), "track1.mp3"]
    ∧ mpg123Args "track1.mp3" (some "hw:1,0") (-1)
      = mpgDeviceArgs (some "hw:1,0") ++ ["--loop", "-1", "track1.mp3"]
    ∧ mpg123Args "track1.mp3" none 1 = mpgDeviceArgs none ++ ["track1.mp3"]
    ∧ mpgDeviceArgs (some "hw:1,0") = ["-a", "hw:1,0"] :=
  ⟨(c4_mpg123_loop_and_device "track1.mp3" (some "hw:1,0") 2).1 (by decide),
   (c4_mpg123_loop_and_device "track1.mp3" (some "hw:1,0") (-1)).2.1 (by decide),
   (c4_mpg123_loop_and_device "track1.mp3" none 1).2.2.1 rfl,
   (c4_mpg123_loop_and_device "track1.mp3" none 1).2.2.2.2 "hw:1,0" rfl⟩

/-- Claim C9: the empty device string is treated exactly like an absent
device: mpg123 gets no `-a` flag (its argument list is the one built with
no device), and the pipeline descriptor carries the literal marker
`"default"`, so the whole candidate sequence coincides with the no-device
one. -/
theorem c9_empty_device_like_none (p : String) (N : Int) (t : Tools) :
    mpg123Args p (some "") N = mpg123Args p none N
    ∧ orDefault (some "") = "default"
    ∧ backend_commands p (some "") N t = backend_commands p none N t := by
  refine ⟨rfl, rfl, ?_⟩
  obtain ⟨m, f, g, a⟩ := t
  cases m <;> cases f <;> cases g <;> cases a <;>
    simp [backend_commands, mpg123Args, mpgDeviceArgs, orDefault] <;> decide

/-- Claim C10: loop count 0 behaves like loop count 1: the mpg123 and
ffplay commands carry no loop argument (each equals its loop-count-1
command), and the pipeline backend, whose whole run at loop count 0 equals
its run at loop count 1, plays the decoded file exactly once. -/
theorem c10_loops_zero_like_one (p : String) (d : Option String) (t : Tools)
    (dev : String) (decodeRc : Int) (playRc : Nat → Int) (fuel : Nat) :
    mpg123Args p d 0 = mpg123Args p d 1
    ∧ ffplayArgs p 0 = ffplayArgs p 1
    ∧ mpg123Args p d 0 = mpgDeviceArgs d ++ [p]
    ∧ ffplayArgs p 0 = ["-nodisp", "-autoexit", "-loglevel", "error", p]
    ∧ run_ffmpeg_to_wav_then_aplay t dev 0 decodeRc playRc fuel
        = run_ffmpeg_to_wav_then_aplay t dev 1 decodeRc playRc fuel
    ∧ (t.ffmpeg ≠ none → t.aplay ≠ none → decodeRc = 0 →
        (run_ffmpeg_to_wav_then_aplay t dev 0 decodeRc playRc fuel).plays = 1) := by
  obtain ⟨m, f, g, a⟩ := t
  refine ⟨rfl, rfl, by simp [mpg123Args], rfl, ?_, ?_⟩
  · cases g with
    | none => rfl
    | some g' =>
      cases a with
      | none => rfl
      | some a' =>
        by_cases hd : decodeRc = 0 <;>
          simp [run_ffmpeg_to_wav_then_aplay, hd]
  · intro hg ha hd
    subst hd
    cases g with
    | none => exact absurd rfl hg
    | some g' =>
      cases a with
      | none => exact absurd rfl ha
      | some a' =>
        by_cases hp : playRc 0 = 0 <;>
          simp [run_ffmpeg_to_wav_then_aplay, runPlays, hp]

/-- Witness for C10: the pipeline at loop count 0 with a successful decode
makes exactly one play attempt. -/
theorem c10_loops_zero_like_one_witness :
    (run_ffmpeg_to_wav_then_aplay
        ⟨none, none, some "/usr/bin/ffmpeg", some "/usr/bin/aplay"⟩
        "default" 0 0 (fun _ => 0) 3).plays = 1 :=
  (c10_loops_zero_like_one "track1.mp3" none
      ⟨none, none, some "/usr/bin/ffmpeg", some "/usr/bin/aplay"⟩
      "default" 0 (fun _ => 0) 3).2.2.2.2.2 (by decide) (by decide) rfl

/-- Claim C5: a non-zero decode status k makes the pipeline return k
immediately with no play attempt and with the temporary directory removed;
and when only backend C's executables are present, the program's exit
status is exactly k. -/
theorem c5_decode_failure_propagates (t : Tools) (dev : String)
    (loops k : Int) (playRc : Nat → Int) (fuel : Nat) (p : String)
    (d : Option String) (exec : Nat → ExecResult) (rpi : Bool)
    (al aL : String) (hg : t.ffmpeg ≠ none) (ha : t.aplay ≠ none)
    (hk : k ≠ 0) :
    run_ffmpeg_to_wav_then_aplay t dev loops k playRc fuel
      = ⟨some k, 0, true, true⟩
    ∧ (t.mpg123 = none → t.ffplay = none →
        (mainRun true p d loops false false rpi al aL t exec k playRc
            fuel).exitCode = some k) := by
  obtain ⟨m, f, g, a⟩ := t
  cases g with
  | none => exact absurd rfl hg
  | some g' =>
    cases a with
    | none => exact absurd rfl ha
    | some a' =>
      constructor
      · simp [run_ffmpeg_to_wav_then_aplay, hk]
      · intro hm hf
        subst hm hf
        rw [mainRun_playback p d loops false rpi al aL _ exec k playRc fuel
          (by simp [backend_commands])]
        simp [backend_commands, tryCandidates, run_ffmpeg_to_wav_then_aplay, hk]

/-- Witness for C5: decode status 5 with only ffmpeg+aplay present makes
the program exit 5. -/
theorem c5_decode_failure_propagates_witness :
    (mainRun true "track1.mp3" none 1 false false false "" ""
        ⟨none, none, some "/usr/bin/ffmpeg", some "/usr/bin/aplay"⟩
        (fun _ => ExecResult.exited 0) 5 (fun _ => 0) 0).exitCode = some 5 :=
  (c5_decode_failure_propagates
      ⟨none, none, some "/usr/bin/ffmpeg", some "/usr/bin/aplay"⟩
      "default" 1 5 (fun _ => 0) 0 "track1.mp3" none
      (fun _ => ExecResult.exited 0) false "" ""
      (by decide) (by decide) (by decide)).2 rfl rfl

/-- Counterexample to C6 as stated: with `--list-devices` set and a
nonexistent input file the program exits 2, not 0, because the existence
check precedes the list-devices handling. -/
theorem c6_list_devices_counterexample :
    (mainRun false "missing.mp3" none 1 true false false "" ""
        ⟨none, none, none, none⟩ (fun _ => ExecResult.exited 0) 0 (fun _ => 0)
        0).exitCode = some 2 := rfl

/-- Claim C6 (amended): with `--list-devices` set and an existing input
file the program exits 0 and never attempts playback; with a nonexistent
input file it exits 2 (file validation runs first). -/
theorem c6_list_devices_exit (p : String) (d : Option String) (l : Int)
    (dry rpi : Bool) (al aL : String) (t : Tools) (exec : Nat → ExecResult)
    (dRc : Int) (pRc : Nat → Int) (fuel : Nat) :
    ((mainRun true p d l true dry rpi al aL t exec dRc pRc fuel).exitCode
        = some 0
      ∧ (mainRun true p d l true dry rpi al aL t exec dRc pRc fuel).events.all
          (fun e => !e.isPlayback) = true)
    ∧ mainRun false p d l true dry rpi al aL t exec dRc pRc fuel
        = ⟨some 2, []⟩ :=
  ⟨⟨rfl, probeEvents_no_playback t⟩, rfl⟩

/-- Claim C8: a nonexistent input file makes the program exit 2 with an
empty event trace: no probing, no candidate generation, no tool invocation
of any kind happens before the validation failure. -/
theorem c8_missing_file_exits_2 (p : String) (d : Option String) (l : Int)
    (ld dry rpi : Bool) (al aL : String) (t : Tools)
    (exec : Nat → ExecResult) (dRc : Int) (pRc : Nat → Int) (fuel : Nat) :
    mainRun false p d l ld dry rpi al aL t exec dRc pRc fuel
      = ⟨some 2, []⟩ := rfl

/-- Counterexample to C7 as stated: in a dry run with an existing file and
the ffmpeg+aplay backend available, probing still spawns `aplay` child
processes, so the program does spawn child processes (while exiting 0). -/
theorem c7_dry_run_counterexample :
    (mainRun true "track1.mp3" none 1 false true false "" ""
        ⟨none, none, some "/usr/bin/ffmpeg", some "/usr/bin/aplay"⟩
        (fun _ => ExecResult.exited 0) 0 (fun _ => 0) 0).exitCode = some 0
    ∧ (mainRun true "track1.mp3" none 1 false true false "" ""
        ⟨none, none, some "/usr/bin/ffmpeg", some "/usr/bin/aplay"⟩
        (fun _ => ExecResult.exited 0) 0 (fun _ => 0) 0).events.any
        Event.isChildSpawn = true := ⟨rfl, rfl⟩

/-- Claim C7 (amended): with `--dry-run`, an existing input file and at
least one backend available, the program spawns no playback child process
(probing may still spawn the device-listing tool) and exits 0. -/
theorem c7_dry_run_no_playback_spawn (p : String) (d : Option String)
    (l : Int) (rpi : Bool) (al aL : String) (t : Tools)
    (exec : Nat → ExecResult) (dRc : Int) (pRc : Nat → Int) (fuel : Nat)
    (h : backend_commands p d l t ≠ []) :
    (mainRun true p d l false true rpi al aL t exec dRc pRc fuel).exitCode
      = some 0
    ∧ (mainRun true p d l false true rpi al aL t exec dRc pRc fuel).events.all
        (fun e => !e.isPlayback) = true := by
  rw [mainRun_playback p d l true rpi al aL t exec dRc pRc fuel h]
  cases hcs : backend_commands p d l t with
  | nil => exact absurd hcs h
  | cons c rest =>
    rw [tryCandidates_dry]
    refine ⟨rfl, ?_⟩
    simp only [List.append_nil, List.all_append, probeEvents_no_playback,
      Bool.true_and]
    split <;> simp [Event.isPlayback]

/-- Witness for C7 (amended) with mpg123 available. -/
theorem c7_dry_run_no_playback_spawn_witness :
    (mainRun true "track1.mp3" none 1 false true false "" ""
        ⟨some "/usr/bin/mpg123", none, none, none⟩
        (fun _ => ExecResult.exited 0) 0 (fun _ => 0) 0).exitCode = some 0
    ∧ (mainRun true "track1.mp3" none 1 false true false "" ""
        ⟨some "/usr/bin/mpg123", none, none, none⟩
        (fun _ => ExecResult.exited 0) 0 (fun _ => 0) 0).events.all
        (fun e => !e.isPlayback) = true :=
  c7_dry_run_no_playback_spawn "track1.mp3" none 1 false "" ""
    ⟨some "/usr/bin/mpg123", none, none, none⟩
    (fun _ => ExecResult.exited 0) 0 (fun _ => 0) 0 (by decide)

/-- Claim C1: for a candidate list with at least two entries, a simple
candidate that exits non-zero or cannot be launched makes the loop advance
to the next candidate instead of terminating; the program exits 0 as soon
as a simple candidate (all earlier candidates being failing simple ones)
exits 0; and the program exits 1 only when every candidate was tried and
each failed. -/
theorem c1_fallback_policy (p : String) (d : Option String) (l : Int)
    (rpi : Bool) (al aL : String) (t : Tools) (exec : Nat → ExecResult)
    (dRc : Int) (pRc : Nat → Int) (fuel : Nat) (cs : List Cmd)
    (hm : t.mpg123 ≠ some pipeSentinel) (hf : t.ffplay ≠ some pipeSentinel)
    (hcs : cs = backend_commands p d l t) (hlen : 2 ≤ cs.length) :
    (∀ (c : Cmd) (rest : List Cmd) (i : Nat), c.exe ≠ pipeSentinel →
        execFails exec i →
        (tryCandidates false t exec dRc pRc fuel (c :: rest) i).1
          = (tryCandidates false t exec dRc pRc fuel rest (i + 1)).1)
    ∧ (∀ k, k < cs.length →
        (∀ j, j < k →
          ((cs.getD j ⟨"", []⟩).exe ≠ pipeSentinel ∧ execFails exec j)) →
        (cs.getD k ⟨"", []⟩).exe ≠ pipeSentinel →
        exec k = ExecResult.exited 0 →
        (mainRun true p d l false false rpi al aL t exec dRc pRc
            fuel).exitCode = some 0)
    ∧ ((mainRun true p d l false false rpi al aL t exec dRc pRc
          fuel).exitCode = some 1 →
        ∀ j, j < cs.length →
          candidateFails t exec dRc pRc fuel (cs.getD j ⟨"", []⟩) j) := by
  subst hcs
  have hne : backend_commands p d l t ≠ [] := by
    intro h0
    rw [h0] at hlen
    simp at hlen
  have hmain : (mainRun true p d l false false rpi al aL t exec dRc pRc
      fuel).exitCode
      = (tryCandidates false t exec dRc pRc fuel (backend_commands p d l t)
          0).1 := by
    rw [mainRun_playback p d l false rpi al aL t exec dRc pRc fuel hne]
  refine ⟨tryCandidates_fail_advance t exec dRc pRc fuel, ?_, ?_⟩
  · intro k hk hprev hsimple h0
    rw [hmain]
    exact tryCandidates_first_success t exec dRc pRc fuel
      (backend_commands p d l t) 0 k hk
      (fun j hj => by simpa using hprev j hj) hsimple (by simpa using h0)
  · intro h1 j hj
    rw [hmain] at h1
    have := tryCandidates_one_all_fail t exec dRc pRc fuel
      (backend_commands p d l t) 0 (backend_commands_sobl p d l t hm hf) h1 j hj
    simpa using this

/-- Witness for C1: mpg123 and ffplay both present, mpg123 exits 1, ffplay
exits 0; the program exits 0. -/
theorem c1_fallback_policy_witness :
    (mainRun true "track1.mp3" none 1 false false false "" ""
        ⟨some "/usr/bin/mpg123", some "/usr/bin/ffplay", none, none⟩
        (fun i => if i = 0 then ExecResult.exited 1 else ExecResult.exited 0)
        0 (fun _ => 0) 0).exitCode = some 0 :=
  (c1_fallback_policy "track1.mp3" none 1 false "" ""
      ⟨some "/usr/bin/mpg123", some "/usr/bin/ffplay", none, none⟩
      (fun i => if i = 0 then ExecResult.exited 1 else ExecResult.exited 0)
      0 (fun _ => 0) 0
      (backend_commands "track1.mp3" none 1
        ⟨some "/usr/bin/mpg123", some "/usr/bin/ffplay", none, none⟩)
      (by decide) (by decide) rfl (by decide)).2.1 1 (by decide)
    (fun j hj => by
      interval_cases j
      exact ⟨by decide, Or.inr ⟨1, by decide, rfl⟩⟩)
    (by decide) rfl

end Play
